import Mathlib

/-!
Verification of the Blueprint LLM-orchestration core.

This file gives a shallow embedding, in Lean, of the parts of the Blueprint
code base that the verified properties talk about:

* `src/blueprint/models/cache.py` (`CacheManager`),
* `src/blueprint/models/router.py` (`ModelRouter`),
* `src/blueprint/models/tool_engine.py` (`ToolEngine`, `PermissionManager`),
* `src/blueprint/utils/usage_tracker.py` (`UsageTracker`),
* `src/blueprint/orchestrator/context.py` (`ContextManager`, `PersistentMemory`),
* `src/blueprint/orchestrator/orchestrator.py` (`LLMOrchestrator._record_context`),
* `src/blueprint/models/streaming.py` (`StreamHandler.handle_stream`).

Python dictionaries are modelled as association lists in insertion order,
Python `deque(maxlen=n)` as a list truncated from the left, wall-clock
timestamps as rationals supplied by the caller, floating point numbers as
rationals (every arithmetic operation exercised by the theorems below is
exact in IEEE double precision, so the rational model agrees with the
float semantics on all inputs that appear), and raised exceptions as
`Except` error results.
-/

namespace Blueprint

/-- Model of `Provider` enum from `models/base.py`. -/
inductive Provider
  | openai
  | claude
  | gemini
  | ollama
deriving DecidableEq, Repr

/-- Model of `Provider.value` (the string payload of the Python enum). -/
def Provider.value : Provider → String
  | .openai => "openai"
  | .claude => "claude"
  | .gemini => "gemini"
  | .ollama => "ollama"

/-- Model of `ChatMessage` dataclass from `models/base.py`. -/
structure ChatMessage where
  role : String
  content : String
  name : Option String := none
  toolCallId : Option String := none
deriving DecidableEq, Repr

/-! ## Cache (`models/cache.py`)

`CacheManager._store` is a `Dict[str, Tuple[float, Any]]`; we model it as an
association list in insertion order (Python dicts preserve insertion order).
`time.time()` is passed in explicitly as a rational `now`.
-/

/-- One stored cache value: the `(time.time(), value)` tuple written by
`CacheManager.set`. -/
structure CacheEntry (α : Type) where
  ts : ℚ
  value : α
deriving DecidableEq, Repr

/-- Model of `self._store.get(key)`: first entry with the given key (a Python dict
holds at most one entry per key, so "first" is exact). -/
def storeLookup {α : Type} : List (String × CacheEntry α) → String → Option (CacheEntry α)
  | [], _ => none
  | (k', e) :: rest, k => if k' = k then some e else storeLookup rest k

/-- Model of `self._store[key] = entry`: dict assignment — replace the entry for the
key if present, otherwise append at the end (insertion order). -/
def storeAssign {α : Type} : List (String × CacheEntry α) → String → CacheEntry α →
    List (String × CacheEntry α)
  | [], k, e => [(k, e)]
  | (k', e') :: rest, k, e =>
    if k' = k then (k, e) :: rest else (k', e') :: storeAssign rest k e

/-- Model of `self._store.pop(key, None)`: drop the entry for the key.  A dict holds
the key at most once; on such stores the filter removes exactly that
entry. -/
def storeRemove {α : Type} (s : List (String × CacheEntry α)) (k : String) :
    List (String × CacheEntry α) :=
  s.filter (fun p => !(p.1 = k))

/-- Model of `CacheManager` state: TTL, capacity, and the store. -/
structure CacheManager (α : Type) where
  ttlSeconds : ℚ
  maxEntries : Nat
  store : List (String × CacheEntry α)
deriving DecidableEq, Repr

/-- Model of `CacheManager.get` from `models/cache.py`: return a cached entry if it is
present and younger than the TTL; purge it (and return `none`) if it has
expired.  Returns the value together with the updated manager. -/
def CacheManager.get {α : Type} (c : CacheManager α) (now : ℚ) (key : String) :
    Option α × CacheManager α :=
  match storeLookup c.store key with
  | none => (none, c)
  | some entry =>
    if now - entry.ts > c.ttlSeconds then
      (none, { c with store := storeRemove c.store key })
    else
      (some entry.value, c)

/-- Model of `CacheManager.set` from `models/cache.py`: evict the first entry in
iteration order when at capacity, then insert `(time.time(), value)`.
(`next(iter(self._store.keys()))` is the key of the head entry; on the
empty store Python would raise `StopIteration`, modelled as a no-op evict —
that branch needs `max_entries = 0` and is not exercised below.) -/
def CacheManager.set {α : Type} (c : CacheManager α) (now : ℚ) (key : String) (value : α) :
    CacheManager α :=
  let afterEvict :=
    if c.maxEntries ≤ c.store.length then
      match c.store with
      | [] => []
      | (k0, _) :: _ => storeRemove c.store k0
    else c.store
  { c with store := storeAssign afterEvict key ⟨now, value⟩ }

theorem storeLookup_storeAssign {α : Type} (s : List (String × CacheEntry α))
    (k : String) (e : CacheEntry α) : storeLookup (storeAssign s k e) k = some e := by
  induction s with
  | nil => simp [storeAssign, storeLookup]
  | cons hd tl ih =>
    obtain ⟨k', e'⟩ := hd
    by_cases hk : k' = k
    · simp [storeAssign, storeLookup, hk]
    · simp [storeAssign, storeLookup, hk, ih]

theorem storeLookup_storeRemove {α : Type} (s : List (String × CacheEntry α))
    (k : String) : storeLookup (storeRemove s k) k = none := by
  induction s with
  | nil => simp [storeRemove, storeLookup]
  | cons hd tl ih =>
    obtain ⟨k', e'⟩ := hd
    by_cases hk : k' = k
    · simpa [storeRemove, storeLookup, hk] using ih
    · simpa [storeRemove, storeLookup, hk] using ih

/-- C7: `set(key, v)` followed by `get(key)` while the elapsed time since the
set is at most the configured TTL returns `v`; once strictly more than the
TTL has elapsed, `get(key)` returns absent and the expired entry is purged
from the store. -/
theorem c7_cache_ttl_roundtrip {α : Type} (c : CacheManager α) (key : String) (v : α)
    (t0 t1 : ℚ) :
    (t1 - t0 ≤ c.ttlSeconds → ((c.set t0 key v).get t1 key).1 = some v) ∧
    (t1 - t0 > c.ttlSeconds →
      ((c.set t0 key v).get t1 key).1 = none ∧
      storeLookup ((c.set t0 key v).get t1 key).2.store key = none) := by
  have hlook : storeLookup (c.set t0 key v).store key = some ⟨t0, v⟩ := by
    simp [CacheManager.set]
    exact storeLookup_storeAssign _ key ⟨t0, v⟩
  have httl : (c.set t0 key v).ttlSeconds = c.ttlSeconds := rfl
  constructor
  · intro hle
    simp [CacheManager.get, hlook, httl, not_lt.mpr hle]
  · intro hgt
    simp [CacheManager.get, hlook, httl, hgt]
    exact storeLookup_storeRemove _ key

/-- Witness for C7: concrete cache with TTL 3600; a read 10 seconds after the
write returns the value, a read 4000 seconds after the write misses and the
entry is gone. -/
theorem c7_cache_ttl_roundtrip_witness :
    ((((⟨3600, 512, []⟩ : CacheManager String).set 0 "k" "v").get 10 "k").1 = some "v") ∧
    (((((⟨3600, 512, []⟩ : CacheManager String).set 0 "k" "v").get 4000 "k").1 = none) ∧
      storeLookup (((((⟨3600, 512, []⟩ : CacheManager String).set 0 "k" "v").get
        4000 "k")).2.store) "k" = none) :=
  ⟨(c7_cache_ttl_roundtrip ⟨3600, 512, []⟩ "k" "v" 0 10).1 (by norm_num),
   (c7_cache_ttl_roundtrip ⟨3600, 512, []⟩ "k" "v" 0 4000).2 (by norm_num)⟩

/-! ## Router (`models/router.py`)

`ModelRouter` holds one adapter per provider; `route` only ever returns one
of them, so the routing decision is modelled as the chosen `Provider`.
The ollama health state consists of the cached status string
(`self._health_cache.get(Provider.OLLAMA)`) and the outcome of a fresh
`await self.ollama.check_health()` call, where `none` models the call
raising an exception and `some s` a returned status `s`. -/

/-- Model of `ModelRole` enum from `models/router.py`. -/
inductive ModelRole
  | architect
  | coder
  | boilerplate
  | reviewer
  | parserRole
deriving DecidableEq, Repr

/-- Model of `ModelRouter._is_ollama_available`: cached "healthy" short-circuits;
otherwise a fresh health check runs (an exception marks the provider down
and returns `False`). -/
def isOllamaAvailable (cachedOllama : Option String) (checkResult : Option String) : Bool :=
  if cachedOllama = some "healthy" then true
  else
    match checkResult with
    | some status => status = "healthy"
    | none => false

/-- Model of `ModelRouter.route` from `models/router.py`.  `maxCharsLocal` is
`self.max_chars_local` (config key `max_chars_local_model`). -/
def route (cachedOllama : Option String) (checkResult : Option String)
    (maxCharsLocal : Nat) (role : ModelRole) (contentSize : Nat) : Provider :=
  match role with
  | .architect => .claude
  | .reviewer => .openai
  | .boilerplate => .gemini
  | .parserRole =>
    if maxCharsLocal < contentSize then .gemini
    else if isOllamaAvailable cachedOllama checkResult then .ollama
    else .gemini
  | .coder =>
    if isOllamaAvailable cachedOllama checkResult ∧ contentSize ≤ maxCharsLocal then .ollama
    else .gemini

/-- C6: for every content size, `route(Coder, size)` returns the local
(ollama) adapter exactly when the local adapter is currently healthy and
`size <= max_chars_local` (inclusive at the boundary), and the fast remote
(gemini) adapter in every other case. -/
theorem c6_route_coder (cachedOllama checkResult : Option String)
    (maxCharsLocal contentSize : Nat) :
    route cachedOllama checkResult maxCharsLocal .coder contentSize =
      if isOllamaAvailable cachedOllama checkResult = true ∧ contentSize ≤ maxCharsLocal
      then Provider.ollama else Provider.gemini := by
  simp [route]

/-! ## Tool engine (`models/tool_engine.py`) -/

/-- The result of running a tool handler on given arguments: `Except.error`
models the handler raising (including the sandbox timeout), `Except.ok` a
returned value.  Arguments are a Python dict, modelled as an association
list of key/value strings. -/
def ToolHandler : Type := List (String × String) → Except String String

/-- Model of `Tool` dataclass from `models/tool_engine.py` (the JSON `parameters`
schema plays no role in any verified property and is carried as an uninterpreted
string). -/
structure Tool where
  name : String
  description : String
  handler : ToolHandler
  requiresApproval : Bool := true
  category : String := "general"
  timeoutSeconds : Nat := 300

/-- Model of `ToolEngine._registry[name] = tool` (dict assignment, insertion
order). -/
def registryAssign : List (String × Tool) → String → Tool → List (String × Tool)
  | [], k, t => [(k, t)]
  | (k', t') :: rest, k, t =>
    if k' = k then (k, t) :: rest else (k', t') :: registryAssign rest k t

/-- Model of `ToolEngine._registry` lookup (`self._registry[name]`). -/
def registryLookup : List (String × Tool) → String → Option Tool
  | [], _ => none
  | (k', t) :: rest, k => if k' = k then some t else registryLookup rest k

/-- Model of `ToolEngine.register_tool`. -/
def registerTool (reg : List (String × Tool)) (name : String) (handler : ToolHandler)
    (description : String := "") (requiresApproval : Bool := true)
    (timeoutSeconds : Nat := 300) : List (String × Tool) :=
  registryAssign reg name
    ⟨name, if description = "" then name else description, handler,
      requiresApproval, "general", timeoutSeconds⟩

/-- Model of `ToolEngine._register_builtin_tools`: the four built-in registrations in
source order, with the `requires_approval` flags passed at each call site.
The handlers perform real I/O and are taken as parameters. -/
def registerBuiltinTools (readFileH writeFileH listDirH shellH : ToolHandler) :
    List (String × Tool) :=
  let r0 : List (String × Tool) := []
  let r1 := registerTool r0 "read_file" readFileH "Read contents of a file" false 300
  let r2 := registerTool r1 "write_file" writeFileH "Write content to a file" true 300
  let r3 := registerTool r2 "list_directory" listDirH "List files in a directory" false 300
  registerTool r3 "run_shell_command" shellH "Execute a shell command" true 600

/-- A trivial stand-in handler, used only to state closed theorems about the
registration flags (which do not depend on handler behaviour). -/
def nullHandler : ToolHandler := fun _ => Except.error "io"

/-- Counterexample to C4: in a freshly constructed `ToolEngine`, the built-in
`list_directory` tool is registered with `requires_approval=False`, not
`True` as the claim states. -/
theorem c4_list_directory_counterexample :
    ¬ ((registryLookup (registerBuiltinTools nullHandler nullHandler nullHandler nullHandler)
        "list_directory").map Tool.requiresApproval = some true) := by
  intro h
  have h' : (registryLookup (registerBuiltinTools nullHandler nullHandler nullHandler
      nullHandler) "list_directory").map Tool.requiresApproval = some false := rfl
  rw [h'] at h
  simp at h

/-- C4 (amended): in a freshly constructed `ToolEngine`, `read_file` and
`list_directory` are registered with `requires_approval=false`, while
`write_file` and `run_shell_command` are registered with
`requires_approval=true`. -/
theorem c4_builtin_approval_defaults :
    ((registryLookup (registerBuiltinTools nullHandler nullHandler nullHandler nullHandler)
        "read_file").map Tool.requiresApproval = some false) ∧
    ((registryLookup (registerBuiltinTools nullHandler nullHandler nullHandler nullHandler)
        "write_file").map Tool.requiresApproval = some true) ∧
    ((registryLookup (registerBuiltinTools nullHandler nullHandler nullHandler nullHandler)
        "list_directory").map Tool.requiresApproval = some false) ∧
    ((registryLookup (registerBuiltinTools nullHandler nullHandler nullHandler nullHandler)
        "run_shell_command").map Tool.requiresApproval = some true) := by
  refine ⟨rfl, rfl, rfl, rfl⟩

/-- Tool permission mode (`ToolEngine.permission_mode`). -/
inductive PermissionMode
  | deny
  | trust
  | auto
  | manual
deriving DecidableEq, Repr

/-- Dict lookup on an argument map (`args.get("path")`). -/
def argsLookup : List (String × String) → String → Option String
  | [], _ => none
  | (k', v) :: rest, k => if k' = k then some v else argsLookup rest k

/-- One auto-approve pattern check inside `PermissionManager.is_whitelisted`:
a pattern `tool_pattern` or `tool_pattern:path_glob` matches when the tool
pattern equals the tool name or is `**`, and (if a path glob is present)
the args hold a truthy `path` matched by `fnmatch`.  `fnmatch` itself is an
external library call, taken as a parameter. -/
def patternAllows (fnmatch : String → String → Bool) (toolName : String)
    (pathArg : Option String) (pattern : String) : Bool :=
  let parts := pattern.splitOn ":"
  let toolPattern := parts.headD pattern
  if toolPattern ≠ toolName ∧ toolPattern ≠ "**" then false
  else if parts.length = 1 then true
  else
    match pathArg with
    | some p => if p = "" then false else fnmatch p (String.intercalate ":" parts.tail)
    | none => false

/-- Model of `PermissionManager.is_whitelisted`: the loop over
`self.auto_approve_patterns` returns on the first match. -/
def isWhitelistedByPattern (fnmatch : String → String → Bool) (patterns : List String)
    (toolName : String) (pathArg : Option String) : Bool :=
  patterns.any (patternAllows fnmatch toolName pathArg)

/-- Model of `ToolEngine._enforce_permissions`, as the decision whether execution is
allowed (`false` models the raised `PermissionError`).  `approvalResult`
is the outcome of `PermissionManager.request_approval` (approval callback
or interactive y/n prompt), an external interaction. -/
def enforcePermissions (mode : PermissionMode) (whitelist : List String)
    (fnmatch : String → String → Bool) (patterns : List String) (approvalResult : Bool)
    (tool : Tool) (args : List (String × String)) : Bool :=
  match mode with
  | .deny => false
  | .trust => true
  | .auto =>
    if tool.requiresApproval ∧ ¬ whitelist.contains tool.name then
      isWhitelistedByPattern fnmatch patterns tool.name (argsLookup args "path")
    else true
  | .manual =>
    if tool.requiresApproval ∧ ¬ whitelist.contains tool.name then approvalResult
    else true

/-- One line of the tool audit log (`ToolEngine._audit`): timestamp, tool
name, success flag, and the names of the argument keys.  No field of the
entry can hold an argument value. -/
structure AuditEntry where
  timestamp : String
  tool : String
  success : Bool
  argKeys : List String
deriving DecidableEq, Repr

/-- Model of `ToolEngine._audit`: append one entry when the audit log is enabled. -/
def auditAppend (auditEnabled : Bool) (log : List AuditEntry) (ts name : String)
    (args : List (String × String)) (success : Bool) : List AuditEntry :=
  if auditEnabled then log ++ [⟨ts, name, success, args.map Prod.fst⟩] else log

/-- Python exceptions raised by `execute_tool` before the handler runs. -/
inductive ToolError
  | unknownTool (name : String)
  | permissionDenied (name : String)
  | handlerError (message : String)
deriving DecidableEq, Repr

/-- Model of `ToolEngine.execute_tool` composed with `_execute_sandboxed` and
`_audit`: unknown name raises `ValueError`; a permission refusal raises
`PermissionError` (no audit entry); a handler exception is audited as a
failure and re-raised; a handler result is audited as a success and
returned.  Returns the outcome together with the new audit log. -/
def executeTool (registry : List (String × Tool)) (mode : PermissionMode)
    (whitelist : List String) (fnmatch : String → String → Bool) (patterns : List String)
    (approvalResult : Bool) (auditEnabled : Bool) (log : List AuditEntry) (ts : String)
    (name : String) (args : List (String × String)) :
    Except ToolError String × List AuditEntry :=
  match registryLookup registry name with
  | none => (.error (.unknownTool name), log)
  | some tool =>
    if enforcePermissions mode whitelist fnmatch patterns approvalResult tool args then
      match tool.handler args with
      | .error e => (.error (.handlerError e), auditAppend auditEnabled log ts tool.name args false)
      | .ok r => (.ok r, auditAppend auditEnabled log ts name args true)
    else (.error (.permissionDenied name), log)

/-- C8: for every registered tool whose handler raises, and whose execution
is permitted, `execute_tool` propagates the exception from the handler and — with
the audit log enabled — appends exactly one failed audit entry carrying
the timestamp, the tool name, `success=false`, and only the names of the
argument keys (the `argKeys` field of the entry is `args.map Prod.fst`; no
field of `AuditEntry` can hold an argument value). -/
theorem c8_execute_tool_failure_audit (registry : List (String × Tool))
    (mode : PermissionMode) (whitelist : List String) (fnmatch : String → String → Bool)
    (patterns : List String) (approvalResult : Bool) (log : List AuditEntry)
    (ts name : String) (args : List (String × String)) (tool : Tool) (e : String)
    (hreg : registryLookup registry name = some tool)
    (hperm : enforcePermissions mode whitelist fnmatch patterns approvalResult tool args = true)
    (hfail : tool.handler args = .error e) :
    executeTool registry mode whitelist fnmatch patterns approvalResult true log ts name args =
      (.error (.handlerError e),
        log ++ [⟨ts, tool.name, false, args.map Prod.fst⟩]) := by
  simp [executeTool, hreg, hperm, hfail, auditAppend]

/-- Witness for C8: a concrete engine in `trust` mode with one registered
tool whose handler fails; the error propagates and the audit log gains
exactly the one failed, value-free entry. -/
theorem c8_execute_tool_failure_audit_witness :
    registryLookup (registerTool [] "read_file" nullHandler) "read_file" =
      some ⟨"read_file", "read_file", nullHandler, true, "general", 300⟩ ∧
    executeTool (registerTool [] "read_file" nullHandler) .trust [] (fun _ _ => false) []
        false true [] "t0" "read_file" [("path", "/missing")] =
      (.error (.handlerError "io"),
        [⟨"t0", "read_file", false, ["path"]⟩]) := by
  refine ⟨rfl, ?_⟩
  have h := c8_execute_tool_failure_audit (registerTool [] "read_file" nullHandler)
    .trust [] (fun _ _ => false) [] false [] "t0" "read_file" [("path", "/missing")]
    ⟨"read_file", "read_file", nullHandler, true, "general", 300⟩ "io" rfl rfl rfl
  simpa using h

/-! ## Usage tracker (`utils/usage_tracker.py`)

`UsageTracker.record_usage` also pushes the record into the hourly/daily
sliding-window deques and the `UsageStats` aggregate; those stores receive
exactly the same record object and play no role in the property verified
here, which concerns `self.records` (the list behind `get_stats`). -/

/-- Model of `UsageRecord` dataclass. -/
structure UsageRecord where
  provider : String
  model : String
  promptTokens : Nat
  completionTokens : Nat
  totalTokens : Nat
  cost : ℚ
  success : Bool
deriving DecidableEq, Repr

/-- The token fields read off the `usage` argument by `_read_field`
(missing fields read as 0). -/
structure UsageTokens where
  promptTokens : Nat := 0
  completionTokens : Nat := 0
  totalTokens : Nat := 0
deriving DecidableEq, Repr

/-- Model of `self.pricing` lookup: provider → model → `(input_rate, output_rate)`
per 1k tokens. -/
def pricingLookup : List (String × List (String × (ℚ × ℚ))) → String → String →
    Option (ℚ × ℚ)
  | [], _, _ => none
  | (p, models) :: rest, provider, model =>
    if p = provider then
      (models.find? (fun q => q.1 = model)).map Prod.snd
    else pricingLookup rest provider model

/-- Model of `UsageTracker._estimate_cost`: zero without pricing, else
`(prompt*rate_in + completion*rate_out) / 1000`. -/
def estimateCost (pricing : List (String × List (String × (ℚ × ℚ))))
    (provider model : String) (promptTokens completionTokens : Nat) : ℚ :=
  match pricingLookup pricing provider model with
  | none => 0
  | some (inputRate, outputRate) =>
    ((promptTokens : ℚ) * inputRate + (completionTokens : ℚ) * outputRate) / 1000

/-- Model of `UsageTracker` state (pricing, limits, and the append-only record
list). -/
structure UsageTracker where
  pricing : List (String × List (String × (ℚ × ℚ))) := []
  maxCost : Option ℚ := none
  maxTokensPerRequest : Option Nat := none
  records : List UsageRecord := []
deriving Repr

/-- Model of `get_stats()["cost"]` with no filters: the cost sum over all records. -/
def statsCost (records : List UsageRecord) : ℚ :=
  (records.map UsageRecord.cost).sum

/-- Model of `get_stats()["total_tokens"]` with no filters. -/
def statsTotalTokens (records : List UsageRecord) : Nat :=
  (records.map UsageRecord.totalTokens).sum

/-- The guard `if self.max_tokens_per_request and total_tokens >
self.max_tokens_per_request` (a limit of `None` or `0` is falsy and skips
the check). -/
def hitsTokenLimit : Option Nat → Nat → Bool
  | none, _ => false
  | some m, total => if m = 0 then false else decide (m < total)

/-- The two `QuotaExceededError` messages `record_usage` can raise. -/
inductive QuotaError
  | tokensExceeded (total limit : Nat)
  | costExceeded (total limit : ℚ)
deriving DecidableEq, Repr

/-- Model of `self._read_field(usage, "prompt_tokens")` (`None` usage reads 0). -/
def readPromptTokens : Option UsageTokens → Nat
  | none => 0
  | some u => u.promptTokens

/-- Model of `self._read_field(usage, "completion_tokens")`. -/
def readCompletionTokens : Option UsageTokens → Nat
  | none => 0
  | some u => u.completionTokens

/-- Model of `self._read_field(usage, "total_tokens") or prompt_tokens +
completion_tokens` (0 is falsy, so a zero/absent total falls back to the
sum). -/
def readTotalTokens (usage : Option UsageTokens) : Nat :=
  let totalRead := match usage with | none => 0 | some u => u.totalTokens
  if totalRead = 0 then readPromptTokens usage + readCompletionTokens usage else totalRead

/-- The `UsageRecord(...)` value constructed by `record_usage`
(`success=usage is not None`). -/
def mkUsageRecord (pricing : List (String × List (String × (ℚ × ℚ))))
    (provider model : String) (usage : Option UsageTokens) : UsageRecord :=
  ⟨provider, model, readPromptTokens usage, readCompletionTokens usage,
    readTotalTokens usage,
    estimateCost pricing provider model (readPromptTokens usage) (readCompletionTokens usage),
    usage.isSome⟩

/-- Model of `UsageTracker.record_usage`: read the token fields (total falls back to
prompt+completion when absent or zero), estimate the cost, check the
per-request token ceiling *before* storing anything, then append the
record and finally check the lifetime cost cap against the new
`get_stats()` cost sum.  Returns the outcome together with the new
state. -/
def recordUsage (st : UsageTracker) (provider model : String)
    (usage : Option UsageTokens) : Except QuotaError Unit × UsageTracker :=
  if hitsTokenLimit st.maxTokensPerRequest (readTotalTokens usage) then
    (.error (.tokensExceeded (readTotalTokens usage) (st.maxTokensPerRequest.getD 0)), st)
  else
    let st' := { st with records := st.records ++ [mkUsageRecord st.pricing provider model usage] }
    match st.maxCost with
    | some mc =>
      if mc < statsCost st'.records then
        (.error (.costExceeded (statsCost st'.records) mc), st')
      else (.ok (), st')
    | none => (.ok (), st')

theorem recordUsage_of_tokenLimit (st : UsageTracker) (provider model : String)
    (usage : Option UsageTokens)
    (h : hitsTokenLimit st.maxTokensPerRequest (readTotalTokens usage) = true) :
    recordUsage st provider model usage =
      (.error (.tokensExceeded (readTotalTokens usage) (st.maxTokensPerRequest.getD 0)), st) := by
  simp [recordUsage, h]

theorem recordUsage_of_not_tokenLimit (st : UsageTracker) (provider model : String)
    (usage : Option UsageTokens)
    (h : hitsTokenLimit st.maxTokensPerRequest (readTotalTokens usage) = false) :
    (recordUsage st provider model usage).2.records =
      st.records ++ [mkUsageRecord st.pricing provider model usage] ∧
    ((recordUsage st provider model usage).1 = .ok () ∨
      ∃ mc, st.maxCost = some mc ∧
        mc < statsCost (st.records ++ [mkUsageRecord st.pricing provider model usage]) ∧
        (recordUsage st provider model usage).1 =
          .error (.costExceeded
            (statsCost (st.records ++ [mkUsageRecord st.pricing provider model usage])) mc)) := by
  rcases hmx : st.maxCost with _ | mc
  · constructor
    · simp [recordUsage, h, hmx]
    · left
      simp [recordUsage, h, hmx]
  · by_cases hlt : mc < statsCost (st.records ++ [mkUsageRecord st.pricing provider model usage])
    · constructor
      · simp [recordUsage, h, hmx, hlt]
      · right
        exact ⟨mc, rfl, hlt, by simp [recordUsage, h, hmx, hlt]⟩
    · constructor
      · simp [recordUsage, h, hmx, hlt]
      · left
        simp [recordUsage, h, hmx, hlt]

/-- Counterexample to C3: with a per-request token ceiling of 10, recording a
usage of 20 total tokens raises `QuotaExceeded`, but the record of the
violating request has *not* been appended — the token-ceiling check runs
before the record is stored, so the records of the tracker stay empty. -/
theorem c3_token_quota_counterexample :
    (recordUsage ⟨[], none, some 10, []⟩ "openai" "gpt-4o"
        (some ⟨0, 0, 20⟩)).1 = .error (.tokensExceeded 20 10) ∧
    (recordUsage ⟨[], none, some 10, []⟩ "openai" "gpt-4o"
        (some ⟨0, 0, 20⟩)).2.records = [] := by
  exact ⟨rfl, rfl⟩

/-- C3 (amended): when `record_usage` raises because the new running total
cost exceeds the configured lifetime cap, the record of the violating request
has already been appended (and its cost is part of the `get_stats` sum
the check compares); but when it raises because the total
tokens exceed the per-request ceiling, the check fires *before* the
record is stored and the tracker state is unchanged. -/
theorem c3_quota_record_storage (st : UsageTracker) (provider model : String)
    (usage : Option UsageTokens) :
    (∀ t m, (recordUsage st provider model usage).1 = .error (.tokensExceeded t m) →
      (recordUsage st provider model usage).2 = st) ∧
    (∀ tc mc, (recordUsage st provider model usage).1 = .error (.costExceeded tc mc) →
      ∃ rec : UsageRecord,
        (recordUsage st provider model usage).2.records = st.records ++ [rec] ∧
        statsCost ((recordUsage st provider model usage).2.records) = tc ∧ tc > mc) := by
  cases hc : hitsTokenLimit st.maxTokensPerRequest (readTotalTokens usage)
  · obtain ⟨hrecs, houtcome⟩ := recordUsage_of_not_tokenLimit st provider model usage hc
    constructor
    · intro t m h
      rcases houtcome with hok | ⟨mc, _, _, herr⟩
      · rw [hok] at h
        exact absurd h (by simp)
      · rw [herr] at h
        exact absurd h (by simp)
    · intro tc mc h
      rcases houtcome with hok | ⟨mc', _, hlt, herr⟩
      · rw [hok] at h
        exact absurd h (by simp)
      · rw [herr] at h
        simp only [Except.error.injEq, QuotaError.costExceeded.injEq] at h
        refine ⟨mkUsageRecord st.pricing provider model usage, hrecs, ?_, ?_⟩
        · rw [hrecs, h.1]
        · rw [← h.1, ← h.2]
          exact hlt
  · have heq := recordUsage_of_tokenLimit st provider model usage hc
    constructor
    · intro t m _
      rw [heq]
    · intro tc mc h
      rw [heq] at h
      exact absurd h (by simp)

/-- Witness for C3 (amended): a token-ceiling violation leaves the tracker
unchanged, and a lifetime-cost-cap violation (pricing 1/1 per 1k, cap 0,
1000 prompt tokens so the new cost sum is 1) stores the record first. -/
theorem c3_quota_record_storage_witness :
    (recordUsage ⟨[], none, some 10, []⟩ "openai" "gpt-4o" (some ⟨0, 0, 20⟩)).2 =
      ⟨[], none, some 10, []⟩ ∧
    ∃ rec : UsageRecord,
      (recordUsage ⟨[("openai", [("gpt-4o", (1, 1))])], some 0, none, []⟩ "openai" "gpt-4o"
          (some ⟨1000, 0, 0⟩)).2.records = [] ++ [rec] :=
  ⟨(c3_quota_record_storage ⟨[], none, some 10, []⟩ "openai" "gpt-4o"
      (some ⟨0, 0, 20⟩)).1 20 10 rfl,
   ((c3_quota_record_storage ⟨[("openai", [("gpt-4o", (1, 1))])], some 0, none, []⟩
      "openai" "gpt-4o" (some ⟨1000, 0, 0⟩)).2 1 0
      (by norm_num [recordUsage, hitsTokenLimit, readTotalTokens, readPromptTokens,
        readCompletionTokens, mkUsageRecord, estimateCost, pricingLookup, statsCost])).elim
     (fun rec h => ⟨rec, h.1⟩)⟩

/-! ## Context manager (`orchestrator/context.py`)

`self._session[key]` is a `deque(maxlen=self.max_session_messages)`,
modelled as a list truncated from the left when it would exceed `maxlen`.
`add_message` appends, then summarizes when the length reaches
`self.summarize_threshold`. -/

/-- The last `n` elements of a list — the contents of a
`deque(..., maxlen=n)` after inserting the whole list, and the Python
slice `l[-n:]`. -/
def takeLast {α : Type} (n : Nat) (l : List α) : List α :=
  l.drop (l.length - n)

/-- Model of `deque.append` under a `maxlen` bound: the oldest (leftmost) entry is
dropped when the deque is full. -/
def dequeAppend {α : Type} (maxlen : Nat) (dq : List α) (x : α) : List α :=
  takeLast maxlen (dq ++ [x])

/-- One summary-text line: the role, a colon and a space, then the content
(the f-string built by `_summarize_context`). -/
def summaryLine (m : ChatMessage) : String :=
  m.role ++ ": " ++ m.content

/-- The synthetic `system` summary message built by `_summarize_context`:
its content is the leading tag followed by the newline-joined
`role: content` lines of every collapsed message. -/
def mkSummaryMessage (toSummarize : List ChatMessage) : ChatMessage :=
  ⟨"system",
    "[Previous conversation summary]: " ++
      String.intercalate "\n" (toSummarize.map summaryLine),
    none, none⟩

/-- Model of `ContextManager._summarize_context` acting on the deque of one key:
`keep_recent = 10`; everything before the last 10 messages is collapsed
into one summary message, and the deque is rebuilt as
`deque([summary] + recent, maxlen=maxlen)`. -/
def summarizeContext (maxlen : Nat) (dq : List ChatMessage) : List ChatMessage :=
  let keepRecent := 10
  let toSummarize := dq.take (dq.length - keepRecent)
  let recent := takeLast keepRecent dq
  if toSummarize = [] then dq
  else takeLast maxlen (mkSummaryMessage toSummarize :: recent)

/-- Model of `ContextManager.add_message` acting on the deque of one key: append (the
deque drops from the left at `maxlen`), then summarize once the length
reaches `threshold` (`self.summarize_threshold`). -/
def addMessage (maxlen threshold : Nat) (dq : List ChatMessage) (m : ChatMessage) :
    List ChatMessage :=
  let dq' := dequeAppend maxlen dq m
  if threshold ≤ dq'.length then summarizeContext maxlen dq' else dq'

theorem takeLast_length_le {α : Type} (n : Nat) (l : List α) :
    (takeLast n l).length ≤ n := by
  simp only [takeLast, List.length_drop]
  omega

theorem takeLast_eq_self {α : Type} (n : Nat) (l : List α) (h : l.length ≤ n) :
    takeLast n l = l := by
  simp only [takeLast]
  rw [Nat.sub_eq_zero_of_le h, List.drop_zero]

theorem addMessage_length_le (maxlen threshold : Nat) (dq : List ChatMessage)
    (m : ChatMessage) : (addMessage maxlen threshold dq m).length ≤ maxlen := by
  simp only [addMessage]
  split
  · simp only [summarizeContext]
    split
    · exact takeLast_length_le maxlen _
    · exact takeLast_length_le maxlen _
  · exact takeLast_length_le maxlen _

theorem foldl_addMessage_length_le (maxlen threshold : Nat)
    (msgs : List ChatMessage) (init : List ChatMessage) :
    (msgs.foldl (addMessage maxlen threshold) init).length ≤ max init.length maxlen := by
  induction msgs generalizing init with
  | nil => exact le_max_left _ _
  | cons m rest ih =>
    calc (List.foldl (addMessage maxlen threshold) (addMessage maxlen threshold init m)
            rest).length
        ≤ max (addMessage maxlen threshold init m).length maxlen := ih _
      _ ≤ max maxlen maxlen :=
          max_le_max_right maxlen (addMessage_length_le maxlen threshold init m)
      _ = maxlen := max_self maxlen
      _ ≤ max init.length maxlen := le_max_right _ _

/-- C5: (a) for every sequence of `add_message` calls on one backend key the
stored deque never exceeds `session_max_messages`; (b) whenever a call
crosses the summarize threshold (with the configured
`11 ≤ threshold ≤ maxlen`, as in the defaults 40/50), the resulting deque
is exactly one synthetic system-role summary message — whose content is
the concatenated `role: content` text of *all* collapsed older entries —
followed by the retained 10-message tail, so no older entry is dropped
without its content appearing in the summary. -/
theorem c5_context_summarization (maxlen threshold : Nat) (dq : List ChatMessage)
    (m : ChatMessage) (msgs : List ChatMessage)
    (h11 : 11 ≤ threshold) (hθL : threshold ≤ maxlen)
    (hfit : dq.length + 1 ≤ maxlen) (htrig : threshold ≤ dq.length + 1) :
    (msgs.foldl (addMessage maxlen threshold) []).length ≤ maxlen ∧
    addMessage maxlen threshold dq m =
      mkSummaryMessage ((dq ++ [m]).take (dq.length + 1 - 10)) ::
        takeLast 10 (dq ++ [m]) ∧
    (mkSummaryMessage ((dq ++ [m]).take (dq.length + 1 - 10))).role = "system" ∧
    (mkSummaryMessage ((dq ++ [m]).take (dq.length + 1 - 10))).content =
      "[Previous conversation summary]: " ++ String.intercalate "\n"
        (((dq ++ [m]).take (dq.length + 1 - 10)).map summaryLine) := by
  refine ⟨?_, ?_, rfl, rfl⟩
  · have h := foldl_addMessage_length_le maxlen threshold msgs []
    simpa using h
  · have hlen : (dq ++ [m]).length = dq.length + 1 := by simp
    have hdq' : dequeAppend maxlen dq m = dq ++ [m] := by
      unfold dequeAppend
      exact takeLast_eq_self maxlen _ (by omega)
    have hts : ((dq ++ [m]).take ((dq ++ [m]).length - 10)) ≠ [] := by
      have : ((dq ++ [m]).take ((dq ++ [m]).length - 10)).length =
          min ((dq ++ [m]).length - 10) ((dq ++ [m]).length) := by
        simp
      intro hempty
      rw [hempty] at this
      simp only [List.length_nil] at this
      omega
    simp only [addMessage, hdq']
    rw [if_pos (by simp only [hlen]; omega : threshold ≤ (dq ++ [m]).length)]
    simp only [summarizeContext]
    rw [if_neg hts]
    have hshort : (mkSummaryMessage ((dq ++ [m]).take ((dq ++ [m]).length - 10)) ::
        takeLast 10 (dq ++ [m])).length ≤ maxlen := by
      have := takeLast_length_le 10 (dq ++ [m])
      simp only [List.length_cons]
      omega
    rw [takeLast_eq_self maxlen _ hshort, hlen]

/-- A concrete session deque of 39 identical user messages (for the C5
witness). -/
def witnessDeque : List ChatMessage := List.replicate 39 ⟨"user", "hi", none, none⟩

/-- The concrete 40th message appended in the C5 witness. -/
def witnessIncoming : ChatMessage := ⟨"user", "q", none, none⟩

/-- Witness for C5: the default configuration (`session_max_messages = 50`,
`auto_summarize_threshold = 40`) with a 39-message deque receiving its
40th message. -/
theorem c5_context_summarization_witness :
    (11 ≤ 40 ∧ 40 ≤ 50 ∧ witnessDeque.length + 1 ≤ 50 ∧ 40 ≤ witnessDeque.length + 1) ∧
    addMessage 50 40 witnessDeque witnessIncoming =
      mkSummaryMessage ((witnessDeque ++ [witnessIncoming]).take
          (witnessDeque.length + 1 - 10)) ::
        takeLast 10 (witnessDeque ++ [witnessIncoming]) := by
  refine ⟨⟨by decide, by decide, by decide, by decide⟩, ?_⟩
  exact (c5_context_summarization 50 40 witnessDeque witnessIncoming []
    (by decide) (by decide) (by decide) (by decide)).2.1

/-! ## `LLMOrchestrator._record_context` (`orchestrator/orchestrator.py`)

`_record_context` calls
`self.context_manager.add_message(backend_key, ChatMessage(...))`, but
`ContextManager.add_message(self, message, backend=None)` takes the
*message* first: the call binds `message := backend_key` (a string) and
`backend := the ChatMessage object`.  In CPython the resulting
`self._session` dict access with a `ChatMessage` key raises
`TypeError: unhashable type` (plain dataclasses are unhashable), aborting
`chat()`.  The model below charitably lets the object act as a dict key;
under either reading, nothing is ever appended to the `"openai"` deque,
which is the fact the theorem states. -/

/-- A Python runtime value flowing through the dynamically-typed
`add_message` call: a string or a `ChatMessage` object. -/
inductive PyVal
  | str : String → PyVal
  | chatMsg : ChatMessage → PyVal
deriving DecidableEq, Repr

/-- Python truthiness, for `key = backend or "global"`. -/
def PyVal.isTruthy : PyVal → Bool
  | .str s => !(s = "")
  | .chatMsg _ => true

/-- Model of `msg.role` under dynamic typing (`AttributeError` on a string, modelled
as the empty string; unreachable in the verified scenario). -/
def PyVal.pyRole : PyVal → String
  | .str _ => ""
  | .chatMsg m => m.role

/-- Model of `msg.content` under dynamic typing (same caveat as `PyVal.pyRole`). -/
def PyVal.pyContent : PyVal → String
  | .str _ => ""
  | .chatMsg m => m.content

/-- Model of `self._session` lookup. -/
def sessionLookup : List (PyVal × List PyVal) → PyVal → Option (List PyVal)
  | [], _ => none
  | (k', dq) :: rest, k => if k' = k then some dq else sessionLookup rest k

/-- Model of `self._session[key] = dq` (dict assignment, insertion order). -/
def sessionAssign : List (PyVal × List PyVal) → PyVal → List PyVal →
    List (PyVal × List PyVal)
  | [], k, dq => [(k, dq)]
  | (k', dq') :: rest, k, dq =>
    if k' = k then (k, dq) :: rest else (k', dq') :: sessionAssign rest k dq

/-- Model of `_summarize_context` over dynamically-typed deque entries (same shape as
`summarizeContext`). -/
def pySummarizeContext (maxlen : Nat) (dq : List PyVal) : List PyVal :=
  let keepRecent := 10
  let toSummarize := dq.take (dq.length - keepRecent)
  let recent := takeLast keepRecent dq
  if toSummarize = [] then dq
  else
    takeLast maxlen
      (PyVal.chatMsg ⟨"system",
          "[Previous conversation summary]: " ++ String.intercalate "\n"
            (toSummarize.map (fun v => v.pyRole ++ ": " ++ v.pyContent)),
          none, none⟩ :: recent)

/-- Model of `ContextManager.add_message(message, backend)` over the whole session
dict, exactly as declared (message first): append `message` to the deque
stored under `backend or "global"`, then summarize at the threshold. -/
def cmAddMessage (maxlen threshold : Nat) (session : List (PyVal × List PyVal))
    (message : PyVal) (backend : Option PyVal) : List (PyVal × List PyVal) :=
  let key := match backend with
    | some b => if b.isTruthy then b else .str "global"
    | none => .str "global"
  let dq := (sessionLookup session key).getD []
  let dq' := dequeAppend maxlen dq message
  let dq'' := if threshold ≤ dq'.length then pySummarizeContext maxlen dq' else dq'
  sessionAssign session key dq''

/-- Model of `LLMOrchestrator._record_context` for a string `original_message`: two
`add_message` calls written as `add_message(backend_key, ChatMessage(...))`
— i.e. with the arguments swapped relative to the
signature of `add_message`. -/
def recordContext (maxlen threshold : Nat) (session : List (PyVal × List PyVal))
    (provider : Provider) (originalMessage responseContent : String) :
    List (PyVal × List PyVal) :=
  let backendKey := provider.value
  let s1 := cmAddMessage maxlen threshold session (.str backendKey)
    (some (.chatMsg ⟨"user", originalMessage, none, none⟩))
  cmAddMessage maxlen threshold s1 (.str backendKey)
    (some (.chatMsg ⟨"assistant", responseContent, none, none⟩))

/-- The prior "openai" session context of the C2 scenario: one earlier
user/assistant turn. -/
def priorOpenAiTurn : List PyVal :=
  [.chatMsg ⟨"user", "prev question", none, none⟩,
   .chatMsg ⟨"assistant", "prev answer", none, none⟩]

/-- C2 (code bug): in the end-to-end scenario, after `_record_context` runs
(default limits 50/40), the session context stored under key `"openai"`
still holds only the prior turn — the new user message and the assistant
reply were *not* appended, because `_record_context` passes
`(backend_key, message)` to `add_message(message, backend)` in swapped
order (in CPython the call actually dies with `TypeError, unhashable type ChatMessage`). -/
theorem c2_record_context_swapped_args :
    sessionLookup
        (recordContext 50 40 [(.str "openai", priorOpenAiTurn)] .openai
          "add a retry helper" "Here is a retry helper.")
        (.str "openai") = some priorOpenAiTurn ∧
    PyVal.chatMsg ⟨"user", "add a retry helper", none, none⟩ ∉ priorOpenAiTurn ∧
    PyVal.chatMsg ⟨"assistant", "Here is a retry helper.", none, none⟩ ∉ priorOpenAiTurn := by
  refine ⟨rfl, by decide, by decide⟩

/-! ## Stream coordinator (`models/streaming.py`)

`StreamHandler.handle_stream` is an async generator; its observable
behaviour is the sequence of chunks yielded to the caller, modelled as a
list.  The `stream_chat` of an adapter may behave differently on each
invocation, so an adapter is a provider plus a function from the
invocation index (within one `handle_stream` call, per adapter) to the
chunk list that invocation produces.  Exceptions carry their `str(exc)`
message. -/

/-- Model of `StreamChunk` dataclass from `models/base.py` (usage/tool_call fields
play no role in the verified properties; `error` is the message of the
exception). -/
structure StreamChunk where
  delta : String
  isDone : Bool
  provider : Provider
  model : Option String := none
  error : Option String := none
deriving DecidableEq, Repr

/-- One provider adapter as `handle_stream` sees it. -/
structure Adapter where
  provider : Provider
  stream : Nat → List StreamChunk

/-- The first `chunk.error` raised by the `async for` loop (a `None` result
means the stream was consumed to the end). -/
def firstError : List StreamChunk → Option String
  | [] => none
  | c :: rest =>
    match c.error with
    | some e => some e
    | none => firstError rest

/-- The chunks the loop yields to the caller during one attempt: every chunk
strictly before the first error-bearing chunk (`raise chunk.error` fires
*before* the `yield`). -/
def yieldedChunks : List StreamChunk → List StreamChunk
  | [] => []
  | c :: rest => if c.error.isSome then [] else c :: yieldedChunks rest

/-- The `collected` list of one attempt: the truthy (non-empty) deltas of
the chunks consumed before the first error. -/
def collectedDeltas : List StreamChunk → List String
  | [] => []
  | c :: rest =>
    if c.error.isSome then []
    else if c.delta = "" then collectedDeltas rest
    else c.delta :: collectedDeltas rest

/-- The exception (if any) terminating one attempt: a raised chunk error,
or — after the stream ends — "Stream produced no content" when nothing
was collected, or the JSON-validation failure when `expect_json` was
requested (the model keeps the message head, dropping the formatted
parser detail). -/
def attemptError (expectJson : Bool) (jsonOk : String → Bool)
    (chunks : List StreamChunk) : Option String :=
  match firstError chunks with
  | some e => some e
  | none =>
    if collectedDeltas chunks = [] then some "Stream produced no content"
    else if expectJson && !(jsonOk (String.join (collectedDeltas chunks))) then
      some "Invalid JSON output"
    else none

/-- The synthetic terminal chunk
`StreamChunk(delta="", is_done=True, provider=..., model=..., error=...)`
yielded by `handle_stream` itself. -/
def terminalChunk (p : Provider) (model : Option String) (e : String) : StreamChunk :=
  ⟨"", true, p, model, some e⟩

/-- The `while attempts <= self.max_retries` loop of `handle_stream` for one
adapter.  `remaining` is the number of loop iterations still permitted,
kept equal to `maxRetries + 1 - attempts` by `tryAdapter`, so the
`remaining = 0` base case is exactly the failing while-condition.
Returns (chunks yielded, final `attempts` counter, success flag). -/
def tryAdapterAux (expectJson : Bool) (jsonOk : String → Bool) (maxRetries : Nat)
    (ad : Adapter) (model : Option String) :
    Nat → Nat → Nat → List StreamChunk × Nat × Bool
  | 0, attempts, _ => ([], attempts, false)
  | remaining + 1, attempts, invocation =>
    let chunks := ad.stream invocation
    let ys := yieldedChunks chunks
    match attemptError expectJson jsonOk chunks with
    | none => (ys, attempts, true)
    | some e =>
      if maxRetries < attempts + 1 then
        (ys ++ [terminalChunk ad.provider model e], attempts + 1, false)
      else
        let r := tryAdapterAux expectJson jsonOk maxRetries ad model remaining
          (attempts + 1) (invocation + 1)
        (ys ++ r.1, r.2.1, r.2.2)

/-- The share of one adapter in `handle_stream`, entered with the current global
`attempts` value (the counter is *shared* across adapters in the
source). -/
def tryAdapter (expectJson : Bool) (jsonOk : String → Bool) (maxRetries : Nat)
    (ad : Adapter) (model : Option String) (attempts : Nat) :
    List StreamChunk × Nat × Bool :=
  tryAdapterAux expectJson jsonOk maxRetries ad model (maxRetries + 1 - attempts) attempts 0

/-- The `for current_adapter in adapters` loop: stop on the first successful
adapter (the generator `return`s), otherwise thread the shared `attempts`
counter into the next adapter. -/
def adaptersLoop (expectJson : Bool) (jsonOk : String → Bool) (maxRetries : Nat)
    (model : Option String) : List Adapter → Nat → List StreamChunk × Bool
  | [], _ => ([], false)
  | ad :: rest, attempts =>
    let r := tryAdapter expectJson jsonOk maxRetries ad model attempts
    if r.2.2 then (r.1, true)
    else
      let r' := adaptersLoop expectJson jsonOk maxRetries model rest r.2.1
      (r.1 ++ r'.1, r'.2)

/-- Model of `StreamHandler.handle_stream`: iterate the primary adapter followed by
the fallbacks; if no attempt succeeds, yield the final
"Streaming failed after retries/fallbacks" terminal chunk carrying the
provider of the *primary* adapter. -/
def handleStream (expectJson : Bool) (jsonOk : String → Bool) (maxRetries : Nat)
    (adapter : Adapter) (fallbackAdapters : List Adapter) (model : Option String) :
    List StreamChunk :=
  let r := adaptersLoop expectJson jsonOk maxRetries model (adapter :: fallbackAdapters) 0
  if r.2 then r.1
  else r.1 ++ [terminalChunk adapter.provider model "Streaming failed after retries/fallbacks"]

/-- The C1 primary adapter: its stream always yields an error-bearing chunk
first. -/
def failingPrimary : Adapter :=
  ⟨.claude, fun _ => [⟨"", false, .claude, none, some "boom"⟩]⟩

/-- The C1 fallback adapter: its stream always succeeds with real content. -/
def healthyFallback : Adapter :=
  ⟨.gemini, fun _ => [⟨"hello", false, .gemini, none, none⟩, ⟨"", true, .gemini, none, none⟩]⟩

/-- C1 (code bug): with the default retry budget (`max_retries = 2`), a
primary whose stream always errors on the first chunk, and a fallback
whose stream succeeds, `handle_stream` yields exactly two synthetic
terminal error chunks, both carrying the provider of the failed *primary*, and
no chunk from the fallback adapter at all: the shared `attempts` counter
is never reset when advancing to the next adapter, so the while-condition of the fallback
is already false and its stream is never consumed. -/
theorem c1_fallback_never_runs :
    handleStream false (fun _ => true) 2 failingPrimary [healthyFallback] none =
      [terminalChunk .claude none "boom",
        terminalChunk .claude none "Streaming failed after retries/fallbacks"] ∧
    (handleStream false (fun _ => true) 2 failingPrimary [healthyFallback] none).map
        StreamChunk.provider = [Provider.claude, Provider.claude] := by
  exact ⟨rfl, rfl⟩

theorem exists_delta_of_collectedDeltas (chunks : List StreamChunk)
    (h : collectedDeltas chunks ≠ []) :
    ∃ c ∈ yieldedChunks chunks, c.delta ≠ "" := by
  induction chunks with
  | nil => exact absurd rfl h
  | cons c rest ih =>
    by_cases herr : c.error.isSome
    · exact absurd (by simp [collectedDeltas, herr]) h
    · by_cases hδ : c.delta = ""
      · have h' : collectedDeltas rest ≠ [] := by
          simpa [collectedDeltas, herr, hδ] using h
        obtain ⟨c', hc', hδ'⟩ := ih h'
        exact ⟨c', by simp [yieldedChunks, herr, hc'], hδ'⟩
      · exact ⟨c, by simp [yieldedChunks, herr], hδ⟩

theorem collectedDeltas_ne_nil_of_attemptError_none (expectJson : Bool)
    (jsonOk : String → Bool) (chunks : List StreamChunk)
    (h : attemptError expectJson jsonOk chunks = none) :
    collectedDeltas chunks ≠ [] := by
  intro hempty
  unfold attemptError at h
  rcases hfe : firstError chunks with _ | e
  · rw [hfe] at h
    simp [hempty] at h
  · rw [hfe] at h
    simp at h

theorem tryAdapterAux_success_delta (expectJson : Bool) (jsonOk : String → Bool)
    (maxRetries : Nat) (ad : Adapter) (model : Option String) :
    ∀ remaining attempts invocation,
      (tryAdapterAux expectJson jsonOk maxRetries ad model remaining attempts
        invocation).2.2 = true →
      ∃ c ∈ (tryAdapterAux expectJson jsonOk maxRetries ad model remaining attempts
        invocation).1, c.delta ≠ "" := by
  intro remaining
  induction remaining with
  | zero =>
    intro attempts invocation h
    simp [tryAdapterAux] at h
  | succ rem ih =>
    intro attempts invocation h
    rcases hAE : attemptError expectJson jsonOk (ad.stream invocation) with _ | e
    · have hcol := collectedDeltas_ne_nil_of_attemptError_none expectJson jsonOk _ hAE
      obtain ⟨c, hc, hδ⟩ := exists_delta_of_collectedDeltas _ hcol
      refine ⟨c, ?_, hδ⟩
      simp [tryAdapterAux, hAE]
      exact hc
    · by_cases hlim : maxRetries < attempts + 1
      · rw [show (tryAdapterAux expectJson jsonOk maxRetries ad model (rem + 1) attempts
            invocation).2.2 = false from by simp [tryAdapterAux, hAE, hlim]] at h
        exact absurd h (by simp)
      · have hsucc : (tryAdapterAux expectJson jsonOk maxRetries ad model rem
            (attempts + 1) (invocation + 1)).2.2 = true := by
          have : (tryAdapterAux expectJson jsonOk maxRetries ad model (rem + 1) attempts
              invocation).2.2 = (tryAdapterAux expectJson jsonOk maxRetries ad model rem
              (attempts + 1) (invocation + 1)).2.2 := by
            simp [tryAdapterAux, hAE, hlim]
          rw [this] at h
          exact h
        obtain ⟨c, hc, hδ⟩ := ih (attempts + 1) (invocation + 1) hsucc
        refine ⟨c, ?_, hδ⟩
        simp [tryAdapterAux, hAE, hlim]
        right
        exact hc

theorem adaptersLoop_success_delta (expectJson : Bool) (jsonOk : String → Bool)
    (maxRetries : Nat) (model : Option String) :
    ∀ (adapters : List Adapter) (attempts : Nat),
      (adaptersLoop expectJson jsonOk maxRetries model adapters attempts).2 = true →
      ∃ c ∈ (adaptersLoop expectJson jsonOk maxRetries model adapters attempts).1,
        c.delta ≠ "" := by
  intro adapters
  induction adapters with
  | nil =>
    intro attempts h
    simp [adaptersLoop] at h
  | cons ad rest ih =>
    intro attempts h
    by_cases hs : (tryAdapter expectJson jsonOk maxRetries ad model attempts).2.2 = true
    · obtain ⟨c, hc, hδ⟩ := tryAdapterAux_success_delta expectJson jsonOk maxRetries ad
        model _ attempts 0 hs
      refine ⟨c, ?_, hδ⟩
      simp [adaptersLoop, hs]
      exact hc
    · have hrest : (adaptersLoop expectJson jsonOk maxRetries model rest
          (tryAdapter expectJson jsonOk maxRetries ad model attempts).2.1).2 = true := by
        have : (adaptersLoop expectJson jsonOk maxRetries model (ad :: rest) attempts).2 =
            (adaptersLoop expectJson jsonOk maxRetries model rest
              (tryAdapter expectJson jsonOk maxRetries ad model attempts).2.1).2 := by
          simp [adaptersLoop, hs]
        rw [this] at h
        exact h
      obtain ⟨c, hc, hδ⟩ := ih _ hrest
      refine ⟨c, ?_, hδ⟩
      simp [adaptersLoop, hs]
      right
      exact hc

/-- C9: (a) an adapter stream that completes with no error chunk and no
non-empty delta makes the attempt fail with "Stream produced no content"
(so the handler retries / falls back instead of finishing); consequently
(b) whenever `handle_stream` terminates without ever yielding an
error-bearing chunk, at least one yielded chunk carried a non-empty
delta. -/
theorem c9_stream_no_content (expectJson : Bool) (jsonOk : String → Bool)
    (maxRetries : Nat) (adapter : Adapter) (fallbackAdapters : List Adapter)
    (model : Option String) (chunks : List StreamChunk) :
    (firstError chunks = none → collectedDeltas chunks = [] →
      attemptError expectJson jsonOk chunks = some "Stream produced no content") ∧
    ((∀ c ∈ handleStream expectJson jsonOk maxRetries adapter fallbackAdapters model,
        c.error = none) →
      ∃ c ∈ handleStream expectJson jsonOk maxRetries adapter fallbackAdapters model,
        c.delta ≠ "") := by
  constructor
  · intro hfe hcol
    simp [attemptError, hfe, hcol]
  · intro hnoerr
    cases hS : (adaptersLoop expectJson jsonOk maxRetries model
        (adapter :: fallbackAdapters) 0).2
    · exfalso
      have hterm : terminalChunk adapter.provider model
          "Streaming failed after retries/fallbacks" ∈
          handleStream expectJson jsonOk maxRetries adapter fallbackAdapters model := by
        simp [handleStream, hS]
      have := hnoerr _ hterm
      simp [terminalChunk] at this
    · obtain ⟨c, hc, hδ⟩ := adaptersLoop_success_delta expectJson jsonOk maxRetries model
        (adapter :: fallbackAdapters) 0 hS
      refine ⟨c, ?_, hδ⟩
      simp [handleStream, hS]
      exact hc

/-- Witness for C9: (a) a stream consisting of one empty-delta, error-free
chunk fails with "Stream produced no content"; (b) running the healthy
adapter alone yields an error-free stream containing the non-empty delta
"hello". -/
theorem c9_stream_no_content_witness :
    attemptError false (fun _ => true)
      [{ delta := "", isDone := false, provider := .claude }] =
        some "Stream produced no content" ∧
    ∃ c ∈ handleStream false (fun _ => true) 2 healthyFallback [] none, c.delta ≠ "" :=
  ⟨(c9_stream_no_content false (fun _ => true) 2 healthyFallback [] none
      [{ delta := "", isDone := false, provider := .claude }]).1 rfl rfl,
   (c9_stream_no_content false (fun _ => true) 2 healthyFallback [] none []).2
      (by decide)⟩

/-! ## Persistent memory (`orchestrator/context.py`, `PersistentMemory`)

Floats are modelled as rationals: every value reaching `math.sqrt` below is
a perfect square of a small natural number (`64 * a*a` with `a ≤ 9`), and
every product, sum and quotient involved is exact in IEEE double
precision, so the rational model coincides with the float computation on
all inputs that occur. -/

/-- Model of `PersistentMemory._generate_embedding`: the placeholder embedding
`[float(len(text) % 10)] * 64`. -/
def generateEmbedding (text : String) : List ℚ :=
  List.replicate 64 ((text.length % 10 : ℕ) : ℚ)

/-- Model of `math.sqrt`, exactly, on rationals whose numerator and denominator are
perfect squares (the only values it receives here); junk elsewhere. -/
def ratSqrt (q : ℚ) : ℚ :=
  (Nat.sqrt q.num.natAbs : ℚ) / (Nat.sqrt q.den : ℚ)

/-- Model of `PersistentMemory._cosine_similarity`: dot product over the zipped
vectors divided by the magnitude product, and 0 when either magnitude is
falsy (zero). -/
def cosineSimilarity (a b : List ℚ) : ℚ :=
  let dotProduct := ((a.zip b).map (fun p => p.1 * p.2)).sum
  let magA := ratSqrt ((a.map (fun x => x * x)).sum)
  let magB := ratSqrt ((b.map (fun x => x * x)).sum)
  if magA ≠ 0 ∧ magB ≠ 0 then dotProduct / (magA * magB) else 0

/-- One row of the `memories` table as `retrieve` reads it (`add` stores
`embedding = _generate_embedding(value)`). -/
structure MemoryRow where
  value : String
  embedding : List ℚ

/-- Model of `PersistentMemory.retrieve`: score every row against the query
embedding, sort by similarity descending (the stable Python
`sort(reverse=True)`), return the top `limit` values. -/
def retrieve (rows : List MemoryRow) (query : String) (limit : Nat) : List String :=
  let queryEmbedding := generateEmbedding query
  let results := rows.map (fun r => (cosineSimilarity queryEmbedding r.embedding, r.value))
  let sorted := results.mergeSort (fun x y => decide (y.1 ≤ x.1))
  (sorted.take limit).map Prod.snd

theorem zip_replicate_mul_sum : ∀ (n : Nat) (a b : ℚ),
    (((List.replicate n a).zip (List.replicate n b)).map (fun p => p.1 * p.2)).sum =
      (n : ℚ) * (a * b) := by
  intro n
  induction n with
  | zero => intro a b; simp
  | succ k ih =>
    intro a b
    simp only [List.replicate_succ, List.zip_cons_cons, List.map_cons, List.sum_cons, ih]
    push_cast
    ring

theorem map_sq_replicate_sum : ∀ (n : Nat) (a : ℚ),
    ((List.replicate n a).map (fun x => x * x)).sum = (n : ℚ) * (a * a) := by
  intro n
  induction n with
  | zero => intro a; simp
  | succ k ih =>
    intro a
    simp only [List.replicate_succ, List.map_cons, List.sum_cons, ih]
    push_cast
    ring

theorem ratSqrt_natCast (n : Nat) : ratSqrt (n : ℚ) = (Nat.sqrt n : ℚ) := by
  simp [ratSqrt]

theorem cosineSimilarity_replicate (k l : Nat) :
    cosineSimilarity (List.replicate 64 (k : ℚ)) (List.replicate 64 (l : ℚ)) =
      if k ≠ 0 ∧ l ≠ 0 then 1 else 0 := by
  have hsq : ∀ m : Nat, ((List.replicate 64 ((m : Nat) : ℚ)).map (fun x => x * x)).sum =
      ((64 * (m * m) : Nat) : ℚ) := by
    intro m
    rw [map_sq_replicate_sum]
    push_cast
    ring
  have hmag : ∀ m : Nat, ratSqrt (((List.replicate 64 ((m : Nat) : ℚ)).map
      (fun x => x * x)).sum) = ((8 * m : Nat) : ℚ) := by
    intro m
    rw [hsq m, ratSqrt_natCast]
    congr 1
    rw [show 64 * (m * m) = (8 * m) * (8 * m) from by ring, Nat.sqrt_eq]
  have hdot : (((List.replicate 64 ((k : Nat) : ℚ)).zip
      (List.replicate 64 ((l : Nat) : ℚ))).map (fun p => p.1 * p.2)).sum =
      (64 : ℚ) * ((k : ℚ) * (l : ℚ)) := by
    rw [zip_replicate_mul_sum]
    norm_num
  by_cases hk : k = 0
  · subst hk
    simp only [cosineSimilarity, hmag, hdot]
    rw [if_neg]
    · simp
    · push_cast
      simp
  · by_cases hl : l = 0
    · subst hl
      simp only [cosineSimilarity, hmag, hdot]
      rw [if_neg]
      · simp [hk]
      · push_cast
        simp
    · simp only [cosineSimilarity, hmag, hdot]
      rw [if_pos]
      · rw [if_pos (show k ≠ 0 ∧ l ≠ 0 from ⟨hk, hl⟩), div_eq_one_iff_eq]
        · push_cast
          ring
        · push_cast
          positivity
      · constructor
        · push_cast
          positivity
        · push_cast
          positivity

/-- C10: the placeholder embedding of any text is the constant 64-vector of
`len(text) % 10`, so (a) two texts whose lengths are both indivisible by
10 always score cosine similarity exactly 1, (b) a text whose length is
divisible by 10 scores 0 against anything, and (c) `retrieve` returns at
most `limit` values — the ranking carries no content-dependent
relevance. -/
theorem c10_memory_similarity_degenerate (query value : String)
    (rows : List MemoryRow) (limit : Nat) :
    (¬ (10 ∣ query.length) → ¬ (10 ∣ value.length) →
      cosineSimilarity (generateEmbedding query) (generateEmbedding value) = 1) ∧
    ((10 ∣ query.length ∨ 10 ∣ value.length) →
      cosineSimilarity (generateEmbedding query) (generateEmbedding value) = 0) ∧
    (retrieve rows query limit).length ≤ limit := by
  refine ⟨?_, ?_, ?_⟩
  · intro hq hv
    rw [generateEmbedding, generateEmbedding, cosineSimilarity_replicate]
    rw [if_pos]
    exact ⟨fun h => hq (Nat.dvd_iff_mod_eq_zero.mpr h),
           fun h => hv (Nat.dvd_iff_mod_eq_zero.mpr h)⟩
  · intro hdvd
    rw [generateEmbedding, generateEmbedding, cosineSimilarity_replicate]
    rw [if_neg]
    intro ⟨hq, hv⟩
    rcases hdvd with h | h
    · exact hq (Nat.dvd_iff_mod_eq_zero.mp h)
    · exact hv (Nat.dvd_iff_mod_eq_zero.mp h)
  · simp only [retrieve, List.length_map, List.length_take]
    exact min_le_left _ _

/-- Witness for C10: `"abc"` (length 3) and `"x"` (length 1) score exactly 1;
`"0123456789"` (length 10) scores 0 against `"x"`; a two-row store queried
with `limit = 1` returns at most one value. -/
theorem c10_memory_similarity_degenerate_witness :
    cosineSimilarity (generateEmbedding "abc") (generateEmbedding "x") = 1 ∧
    cosineSimilarity (generateEmbedding "0123456789") (generateEmbedding "x") = 0 ∧
    (retrieve [⟨"x", generateEmbedding "x"⟩, ⟨"abc", generateEmbedding "abc"⟩]
      "query" 1).length ≤ 1 :=
  ⟨(c10_memory_similarity_degenerate "abc" "x" [] 0).1 (by decide) (by decide),
   (c10_memory_similarity_degenerate "0123456789" "x" [] 0).2.1 (Or.inl (by decide)),
   (c10_memory_similarity_degenerate "query" ""
      [⟨"x", generateEmbedding "x"⟩, ⟨"abc", generateEmbedding "abc"⟩] 1).2.2⟩

end Blueprint
